import Mathlib

/-!
Verification development for the transport-abstraction interface of
`tuya-iot-link-sdk-embedded-c` (file `src/interface/network_interface.h`).

The repository material is a declarations-only boundary header: it declares
the `TLSConnectParams` record, the `NetworkContext` structure (a capability
vtable of connect/read/write/disconnect/destroy, a by-value copy of the
connection parameters, and an opaque `tls_context_t *`), and the six
`iot_tls_*` entry points.  The structures and signatures below are embedded
directly from that header.  The bodies of the `iot_tls_*` operations are not
part of the repository (only their declarations are), so their dynamic
behaviour is modelled from the specification's contract (state machine,
failure semantics, partial-I/O semantics, timeout semantics).
-/

namespace NetworkInterface

/-- Model of a C pointer value (an address), as it appears in the vtable
slot signatures of `struct NetworkContext`. -/
def Ptr := Nat

/-- Model of caller-visible byte-addressable memory: the regions backing the
caller's read/write buffers. -/
def Memory := Nat → Nat

/-- Embedded from `src/interface/network_interface.h` lines 41-49: the
`TLSConnectParams` record.  `const char *` string fields are modelled as
`String`; `uint16_t` as `Fin 65536`; `uint32_t` as `Fin 4294967296`;
`bool` as `Bool`. -/
structure TLSConnectParams where
  pRootCALocation : String
  pDeviceCertLocation : String
  pDevicePrivateKeyLocation : String
  pDestinationURL : String
  DestinationPort : Fin 65536
  timeout_ms : Fin 4294967296
  ServerVerificationFlag : Bool
deriving DecidableEq

/-- Type of the `connect` vtable slot:
`int (*connect)(NetworkContext_t *, TLSConnectParams *)`. -/
def ConnectFn := Ptr → Ptr → Int

/-- Type of the `read` vtable slot:
`int (*read)(NetworkContext_t *, unsigned char *, size_t)`. -/
def ReadFn := Ptr → Ptr → Nat → Int

/-- Type of the `write` vtable slot:
`int (*write)(NetworkContext_t *, const unsigned char *, size_t)`. -/
def WriteFn := Ptr → Ptr → Nat → Int

/-- Type of the `disconnect` vtable slot:
`int (*disconnect)(NetworkContext_t *)`. -/
def DisconnectFn := Ptr → Int

/-- Type of the `destroy` vtable slot:
`int (*destroy)(NetworkContext_t *)`. -/
def DestroyFn := Ptr → Int

/-- Embedded from `src/interface/network_interface.h` lines 56-64: the
`struct NetworkContext`.  The forward-declared `tls_context_t` is opaque in
the header, so its shape is a type parameter `Ctx`; the `tls_context_t *`
field is a nullable pointer, modelled as `Option Ctx`. -/
structure NetworkContext (Ctx : Type) where
  connect : ConnectFn
  read : ReadFn
  write : WriteFn
  disconnect : DisconnectFn
  destroy : DestroyFn
  tlsConnectParams : TLSConnectParams
  context : Option Ctx

/-! ### Spec-modelled dynamic semantics

The implementations of `iot_tls_init`, `iot_tls_connect`, `iot_tls_read`,
`iot_tls_write`, `iot_tls_disconnect` and `iot_tls_destroy` are not in the
repository; only their declarations are.  The definitions below model the
contract the specification states for them. -/

/-- Modelled from the spec: the status-code space is a single integer space,
0 for success and negative values for TLS/transport failures (the concrete
codes live in the external `tuya_error_code.h`). -/
def OPRT_OK : Int := 0

/-- Modelled from the spec: failure status for an I/O operation attempted
outside the `connected` state (a contract violation reported as a status,
never undefined behaviour). -/
def errNotConnected : Int := -1

/-- Modelled from the spec: failure status for a TLS handshake that exceeds
the configured `timeout_ms`. -/
def errHandshakeTimeout : Int := -2

/-- Modelled from the spec: failure status for a peer certificate chain that
does not validate against the supplied root CA. -/
def errCertVerifyFail : Int := -3

/-- Modelled from the spec: failure status for a genuine transport failure
(e.g. connection reset) during read/write. -/
def errConnReset : Int := -4

/-- Modelled from the spec: failure status for an operation invoked in a
state where the contract does not allow it. -/
def errBadState : Int := -5

/-- Modelled from the spec: the Transport Handle state machine
`uninitialized -> initialized -> connected <-> (read/write)* -> disconnected
-> destroyed`. -/
inductive ConnState
  | created
  | inited
  | connected
  | disconnected
  | destroyed
deriving DecidableEq

/-- Modelled from the spec: the observable state of one Transport Handle —
its place in the lifecycle state machine and the stored copy of the
Connection Parameters (the concrete `tls_context` session object is private
to the missing platform binding). -/
structure Handle where
  state : ConnState
  tlsConnectParams : TLSConnectParams
deriving DecidableEq

/-- Modelled from the spec: the platform environment one operation observes —
whether the peer's certificate chains to a given root CA, the time the TLS
handshake would actually take, the bytes currently available to read, the
number of bytes the transport will accept for writing, and whether a
connection reset has occurred.  All of this lives in the unseen platform
binding. -/
structure Env where
  certChains : String → Bool
  handshake_ms : Nat
  incoming : List Nat
  writeCap : Nat
  reset : Bool

/-- Store a list of bytes into memory starting at address `p`. -/
def storeBytes (mem : Memory) (p : Nat) (bs : List Nat) : Memory :=
  fun a => if h : p ≤ a ∧ a - p < bs.length then bs.get ⟨a - p, h.2⟩ else mem a

/-- Modelled from the spec: `iot_tls_init` binds the platform capabilities
and stores the Connection Parameters; it must not open a socket or perform a
handshake, so the handle becomes `inited`, never `connected`. -/
def iot_tls_init (rootCA cert key url : String) (port : Fin 65536)
    (tmo : Fin 4294967296) (verify : Bool) : Handle × Int :=
  (⟨ConnState.inited, ⟨rootCA, cert, key, url, port, tmo, verify⟩⟩, OPRT_OK)

/-- A failed operation in state `s` must not leave a usable channel: a
handle that was `connected` is torn down to `disconnected`, any other state
is unchanged. -/
def unconnect : ConnState → ConnState
  | ConnState.connected => ConnState.disconnected
  | s => s

/-- Result of one modelled `iot_tls_connect` call: the handle after the
call, the caller's parameter record after the call (the record is passed by
pointer, so the callee could in principle write through it), the status, and
the wall-clock milliseconds the call consumed. -/
structure ConnectOut where
  handle : Handle
  callerParams : TLSConnectParams
  status : Int
  elapsed_ms : Nat
deriving DecidableEq

/-- Modelled from the spec: `iot_tls_connect` establishes the socket and
performs the TLS handshake.  It validates the peer chain against the root CA
exactly when `ServerVerificationFlag` is set; it fails rather than block
past `timeout_ms`; it succeeds only once the channel is ready; on failure no
partial channel is left usable.  It does not write through the caller's
parameter record and does not change the parameters stored at init time. -/
def iot_tls_connect (env : Env) (h : Handle) (params : TLSConnectParams) :
    ConnectOut :=
  if h.state = ConnState.inited ∨ h.state = ConnState.disconnected then
    if params.timeout_ms.val < env.handshake_ms then
      ⟨⟨unconnect h.state, h.tlsConnectParams⟩, params, errHandshakeTimeout,
        params.timeout_ms.val⟩
    else if params.ServerVerificationFlag = true ∧
        env.certChains params.pRootCALocation = false then
      ⟨⟨unconnect h.state, h.tlsConnectParams⟩, params, errCertVerifyFail,
        env.handshake_ms⟩
    else
      ⟨⟨ConnState.connected, h.tlsConnectParams⟩, params, OPRT_OK,
        env.handshake_ms⟩
  else
    ⟨⟨unconnect h.state, h.tlsConnectParams⟩, params, errBadState, 0⟩

/-- Result of one modelled `iot_tls_read` / `iot_tls_write` call. -/
structure IOOut where
  handle : Handle
  mem : Memory
  status : Int

/-- Modelled from the spec: `iot_tls_read` copies up to `len` of the
available bytes into the caller's buffer at `pMsg` and reports the byte
count through its return value (zero available bytes is a valid zero
return); a genuine failure (reset) or an un-connected handle yields a
negative status and leaves memory untouched. -/
def iot_tls_read (env : Env) (h : Handle) (mem : Memory) (pMsg len : Nat) :
    IOOut :=
  if h.state = ConnState.connected then
    if env.reset then ⟨h, mem, errConnReset⟩
    else ⟨h, storeBytes mem pMsg (env.incoming.take len),
      Int.ofNat (env.incoming.take len).length⟩
  else ⟨h, mem, errNotConnected⟩

/-- Modelled from the spec: `iot_tls_write` submits up to `len` bytes from
the caller's buffer (declared `const unsigned char *` in the header, so the
operation can only read from it) and reports the accepted byte count through
its return value; a genuine failure or an un-connected handle yields a
negative status.  Caller memory is never written. -/
def iot_tls_write (env : Env) (h : Handle) (mem : Memory) (pMsg len : Nat) :
    IOOut :=
  if h.state = ConnState.connected then
    if env.reset then ⟨h, mem, errConnReset⟩
    else ⟨h, mem, Int.ofNat (min env.writeCap len)⟩
  else ⟨h, mem, errNotConnected⟩

/-- Modelled from the spec: `iot_tls_disconnect` tears down the secured
channel; calling it on a handle that is not connected reports a status and
does not corrupt state reachable by destroy. -/
def iot_tls_disconnect (h : Handle) : Handle × Int :=
  if h.state = ConnState.connected then
    (⟨ConnState.disconnected, h.tlsConnectParams⟩, OPRT_OK)
  else (h, errBadState)

/-- Modelled from the spec: `iot_tls_destroy` releases the handle's
resources; `destroyed` is terminal. -/
def iot_tls_destroy (h : Handle) : Handle × Int :=
  if h.state = ConnState.destroyed then (h, errBadState)
  else (⟨ConnState.destroyed, h.tlsConnectParams⟩, OPRT_OK)

/-- One invocation of a post-init transport operation, with the environment
it observes. -/
inductive TOp
  | tconnect (env : Env) (params : TLSConnectParams)
  | tread (env : Env) (pMsg len : Nat)
  | twrite (env : Env) (pMsg len : Nat)
  | tdisconnect
  | tdestroy

/-- The caller-visible world: the Transport Handle and the caller's
memory. -/
structure World where
  handle : Handle
  mem : Memory

/-- Apply one transport operation to the world. -/
def stepOp (w : World) : TOp → World
  | TOp.tconnect env params =>
      { w with handle := (iot_tls_connect env w.handle params).handle }
  | TOp.tread env p len =>
      ⟨(iot_tls_read env w.handle w.mem p len).handle,
        (iot_tls_read env w.handle w.mem p len).mem⟩
  | TOp.twrite env p len =>
      ⟨(iot_tls_write env w.handle w.mem p len).handle,
        (iot_tls_write env w.handle w.mem p len).mem⟩
  | TOp.tdisconnect => { w with handle := (iot_tls_disconnect w.handle).1 }
  | TOp.tdestroy => { w with handle := (iot_tls_destroy w.handle).1 }

/-- Run a sequence of transport operations. -/
def runOps (w : World) : List TOp → World
  | [] => w
  | op :: ops => runOps (stepOp w op) ops

/-! ### Concrete sample values, used by the closed witness theorems. -/

/-- The connection parameters of the spec's happy-path scenario. -/
def sampleParams : TLSConnectParams :=
  ⟨"ca.pem", "cert.pem", "key.pem", "broker.example.com", 8883, 5000, true⟩

/-- An environment whose peer certificate chains to no root CA, with a fast
handshake, three incoming bytes and room for four outgoing bytes. -/
def sampleEnv : Env := ⟨fun _ => false, 100, [1, 2, 3], 4, false⟩

/-- An environment whose peer is trusted but whose handshake would take far
longer than any sample timeout. -/
def slowEnv : Env := ⟨fun _ => true, 999999, [], 8, false⟩

/-- All-zero caller memory. -/
def zeroMem : Memory := fun _ => 0

/-! ### Helper lemmas. -/

/-- `unconnect` never yields the connected state. -/
theorem unconnect_ne_connected (s : ConnState) :
    unconnect s ≠ ConnState.connected := by
  cases s <;> simp [unconnect]

/-- Every `iot_tls_connect` outcome: either success, or a negative status
with the handle forced out of the connected state. -/
theorem connect_cases (env : Env) (h : Handle) (params : TLSConnectParams) :
    ((iot_tls_connect env h params).status = OPRT_OK ∧
      (iot_tls_connect env h params).handle.state = ConnState.connected) ∨
    ((iot_tls_connect env h params).status < 0 ∧
      (iot_tls_connect env h params).handle.state = unconnect h.state) := by
  unfold iot_tls_connect
  split_ifs <;>
    simp [OPRT_OK, errHandshakeTimeout, errCertVerifyFail, errBadState]

/-- `iot_tls_connect` neither writes through the caller's parameter record
nor changes the parameters stored in the handle. -/
theorem connect_keeps_params (env : Env) (h : Handle)
    (params : TLSConnectParams) :
    (iot_tls_connect env h params).callerParams = params ∧
    (iot_tls_connect env h params).handle.tlsConnectParams
      = h.tlsConnectParams := by
  unfold iot_tls_connect
  split_ifs <;> exact ⟨rfl, rfl⟩

/-- No transport operation changes the parameters stored in the handle. -/
theorem stepOp_keeps_params (w : World) (op : TOp) :
    (stepOp w op).handle.tlsConnectParams = w.handle.tlsConnectParams := by
  cases op with
  | tconnect env params => exact (connect_keeps_params env w.handle params).2
  | tread env p len =>
      simp only [stepOp, iot_tls_read]
      split_ifs <;> rfl
  | twrite env p len =>
      simp only [stepOp, iot_tls_write]
      split_ifs <;> rfl
  | tdisconnect =>
      simp only [stepOp, iot_tls_disconnect]
      split_ifs <;> rfl
  | tdestroy =>
      simp only [stepOp, iot_tls_destroy]
      split_ifs <;> rfl

/-! ### The claims. -/

/-- C1: invoking read or write while the Transport Handle is outside the
connected state (before a successful connect, or after disconnect or
destroy) returns a negative failure status; the operation never succeeds
and — being a total function of the modelled state — produces no undefined
behaviour: the handle and the caller's memory are returned unchanged. -/
theorem io_outside_connected_fails (env : Env) (h : Handle) (mem : Memory)
    (p len : Nat) (hs : h.state ≠ ConnState.connected) :
    (iot_tls_read env h mem p len).status < 0 ∧
    (iot_tls_write env h mem p len).status < 0 ∧
    (iot_tls_read env h mem p len).handle = h ∧
    (iot_tls_read env h mem p len).mem = mem ∧
    (iot_tls_write env h mem p len).handle = h ∧
    (iot_tls_write env h mem p len).mem = mem := by
  unfold iot_tls_read iot_tls_write
  simp [hs, errNotConnected]

/-- Witness for C1 at a concrete input: an initialized, never-connected
handle. -/
theorem io_outside_connected_fails_witness :
    (iot_tls_read sampleEnv ⟨ConnState.inited, sampleParams⟩ zeroMem 0 4).status < 0 ∧
    (iot_tls_write sampleEnv ⟨ConnState.inited, sampleParams⟩ zeroMem 0 4).status < 0 ∧
    (iot_tls_read sampleEnv ⟨ConnState.inited, sampleParams⟩ zeroMem 0 4).handle
      = ⟨ConnState.inited, sampleParams⟩ ∧
    (iot_tls_read sampleEnv ⟨ConnState.inited, sampleParams⟩ zeroMem 0 4).mem = zeroMem ∧
    (iot_tls_write sampleEnv ⟨ConnState.inited, sampleParams⟩ zeroMem 0 4).handle
      = ⟨ConnState.inited, sampleParams⟩ ∧
    (iot_tls_write sampleEnv ⟨ConnState.inited, sampleParams⟩ zeroMem 0 4).mem = zeroMem :=
  io_outside_connected_fails sampleEnv ⟨ConnState.inited, sampleParams⟩
    zeroMem 0 4 (by decide)

/-- C2: for a handshake that stays inside the timeout, connecting with the
server-verification flag set against a peer whose certificate does not chain
to the supplied root CA fails (negative status, handle not connected), while
the same connect with the flag cleared succeeds (status 0, handle
connected). -/
theorem connect_verify_flag_semantics (env : Env) (h : Handle)
    (params : TLSConnectParams) (hst : h.state = ConnState.inited)
    (hchain : env.certChains params.pRootCALocation = false)
    (htime : env.handshake_ms ≤ params.timeout_ms.val) :
    ((iot_tls_connect env h
        { params with ServerVerificationFlag := true }).status < 0 ∧
      (iot_tls_connect env h
        { params with ServerVerificationFlag := true }).handle.state
        ≠ ConnState.connected) ∧
    ((iot_tls_connect env h
        { params with ServerVerificationFlag := false }).status = OPRT_OK ∧
      (iot_tls_connect env h
        { params with ServerVerificationFlag := false }).handle.state
        = ConnState.connected) := by
  unfold iot_tls_connect
  simp [hst, hchain, Nat.not_lt.mpr htime, errCertVerifyFail, unconnect]

/-- Witness for C2 at a concrete input: `sampleEnv`'s peer chains to no root
CA and its handshake takes 100 ms against a 5000 ms timeout. -/
theorem connect_verify_flag_semantics_witness :
    ((iot_tls_connect sampleEnv ⟨ConnState.inited, sampleParams⟩
        { sampleParams with ServerVerificationFlag := true }).status < 0 ∧
      (iot_tls_connect sampleEnv ⟨ConnState.inited, sampleParams⟩
        { sampleParams with ServerVerificationFlag := true }).handle.state
        ≠ ConnState.connected) ∧
    ((iot_tls_connect sampleEnv ⟨ConnState.inited, sampleParams⟩
        { sampleParams with ServerVerificationFlag := false }).status = OPRT_OK ∧
      (iot_tls_connect sampleEnv ⟨ConnState.inited, sampleParams⟩
        { sampleParams with ServerVerificationFlag := false }).handle.state
        = ConnState.connected) :=
  connect_verify_flag_semantics sampleEnv ⟨ConnState.inited, sampleParams⟩
    sampleParams (by decide) (by decide) (by decide)

/-- C3: a connect call that returns a failure status leaves the handle out
of the connected state, and read/write on that handle afterwards return
exactly the status they return on a handle that was only initialized and
never connected — a negative failure status — until a fresh connect
succeeds. -/
theorem connect_failure_leaves_not_connected (env : Env) (h : Handle)
    (params : TLSConnectParams)
    (hfail : (iot_tls_connect env h params).status < 0) :
    (iot_tls_connect env h params).handle.state ≠ ConnState.connected ∧
    ∀ (env2 : Env) (mem : Memory) (p len : Nat) (q : TLSConnectParams),
      (iot_tls_read env2 (iot_tls_connect env h params).handle mem p len).status
        = (iot_tls_read env2 ⟨ConnState.inited, q⟩ mem p len).status ∧
      (iot_tls_write env2 (iot_tls_connect env h params).handle mem p len).status
        = (iot_tls_write env2 ⟨ConnState.inited, q⟩ mem p len).status ∧
      (iot_tls_read env2 (iot_tls_connect env h params).handle mem p len).status < 0 ∧
      (iot_tls_write env2 (iot_tls_connect env h params).handle mem p len).status < 0 := by
  have hc := connect_cases env h params
  rcases hc with ⟨hok, _⟩ | ⟨_, hstate⟩
  · rw [hok] at hfail
    exact absurd hfail (by decide)
  · have hne : (iot_tls_connect env h params).handle.state ≠ ConnState.connected := by
      rw [hstate]; exact unconnect_ne_connected h.state
    refine ⟨hne, fun env2 mem p len q => ?_⟩
    unfold iot_tls_read iot_tls_write
    simp [hne, errNotConnected]

/-- Witness for C3 at a concrete input: the connect fails because the peer
does not chain to the root CA while verification is on. -/
theorem connect_failure_leaves_not_connected_witness :
    (iot_tls_connect sampleEnv ⟨ConnState.inited, sampleParams⟩
      sampleParams).handle.state ≠ ConnState.connected ∧
    ∀ (env2 : Env) (mem : Memory) (p len : Nat) (q : TLSConnectParams),
      (iot_tls_read env2 (iot_tls_connect sampleEnv ⟨ConnState.inited, sampleParams⟩
          sampleParams).handle mem p len).status
        = (iot_tls_read env2 ⟨ConnState.inited, q⟩ mem p len).status ∧
      (iot_tls_write env2 (iot_tls_connect sampleEnv ⟨ConnState.inited, sampleParams⟩
          sampleParams).handle mem p len).status
        = (iot_tls_write env2 ⟨ConnState.inited, q⟩ mem p len).status ∧
      (iot_tls_read env2 (iot_tls_connect sampleEnv ⟨ConnState.inited, sampleParams⟩
          sampleParams).handle mem p len).status < 0 ∧
      (iot_tls_write env2 (iot_tls_connect sampleEnv ⟨ConnState.inited, sampleParams⟩
          sampleParams).handle mem p len).status < 0 :=
  connect_failure_leaves_not_connected sampleEnv
    ⟨ConnState.inited, sampleParams⟩ sampleParams (by decide)

/-- C4: a connect call never consumes more wall-clock time than the
configured `timeout_ms`, and when the handshake would exceed that timeout
the call returns a negative failure status (not success) with the handle
left out of the connected state. -/
theorem connect_timeout_bound (env : Env) (h : Handle)
    (params : TLSConnectParams) :
    (iot_tls_connect env h params).elapsed_ms ≤ params.timeout_ms.val ∧
    (params.timeout_ms.val < env.handshake_ms →
      (iot_tls_connect env h params).status < 0 ∧
      (iot_tls_connect env h params).handle.state ≠ ConnState.connected) := by
  constructor
  · unfold iot_tls_connect
    split_ifs <;> simp <;> omega
  · intro htime
    unfold iot_tls_connect
    split_ifs <;>
      simp [errHandshakeTimeout, errBadState, unconnect_ne_connected]

/-- Witness for C4 at a concrete input: `slowEnv`'s handshake needs
999999 ms against a 5000 ms timeout. -/
theorem connect_timeout_bound_witness :
    (iot_tls_connect slowEnv ⟨ConnState.inited, sampleParams⟩
       sampleParams).elapsed_ms ≤ sampleParams.timeout_ms.val ∧
    ((iot_tls_connect slowEnv ⟨ConnState.inited, sampleParams⟩
       sampleParams).status < 0 ∧
     (iot_tls_connect slowEnv ⟨ConnState.inited, sampleParams⟩
       sampleParams).handle.state ≠ ConnState.connected) :=
  ⟨(connect_timeout_bound slowEnv ⟨ConnState.inited, sampleParams⟩ sampleParams).1,
   (connect_timeout_bound slowEnv ⟨ConnState.inited, sampleParams⟩ sampleParams).2
     (by decide)⟩

/-- C5: on a connected handle, read and write each return either a
non-negative byte count bounded by the requested length or a negative error
status; and whenever no genuine transport failure occurs, a transfer of
fewer bytes than requested — including a zero-byte read — is reported as a
non-negative count, never as an error status. -/
theorem io_partial_results_bounded (env : Env) (h : Handle) (mem : Memory)
    (p len : Nat) (hc : h.state = ConnState.connected) :
    ((iot_tls_read env h mem p len).status < 0 ∨
      (0 ≤ (iot_tls_read env h mem p len).status ∧
        (iot_tls_read env h mem p len).status ≤ (len : Int))) ∧
    ((iot_tls_write env h mem p len).status < 0 ∨
      (0 ≤ (iot_tls_write env h mem p len).status ∧
        (iot_tls_write env h mem p len).status ≤ (len : Int))) ∧
    (env.reset = false →
      0 ≤ (iot_tls_read env h mem p len).status ∧
      0 ≤ (iot_tls_write env h mem p len).status) := by
  by_cases hr : env.reset = true
  · have hread : iot_tls_read env h mem p len = ⟨h, mem, errConnReset⟩ := by
      unfold iot_tls_read; simp [hc, hr]
    have hwrite : iot_tls_write env h mem p len = ⟨h, mem, errConnReset⟩ := by
      unfold iot_tls_write; simp [hc, hr]
    rw [hread, hwrite]
    dsimp only
    exact ⟨Or.inl (by decide), Or.inl (by decide),
      fun hf => absurd (hf ▸ hr) (by decide)⟩
  · have hread : iot_tls_read env h mem p len =
        ⟨h, storeBytes mem p (env.incoming.take len),
          Int.ofNat (env.incoming.take len).length⟩ := by
      unfold iot_tls_read; simp [hc, hr]
    have hwrite : iot_tls_write env h mem p len =
        ⟨h, mem, Int.ofNat (min env.writeCap len)⟩ := by
      unfold iot_tls_write; simp [hc, hr]
    rw [hread, hwrite]
    dsimp only
    refine ⟨Or.inr ⟨Int.ofNat_nonneg _, ?_⟩, Or.inr ⟨Int.ofNat_nonneg _, ?_⟩,
      fun _ => ⟨Int.ofNat_nonneg _, Int.ofNat_nonneg _⟩⟩
    · exact Int.ofNat_le.mpr (List.length_take_le len env.incoming)
    · exact Int.ofNat_le.mpr (Nat.min_le_right env.writeCap len)

/-- Witness for C5 at a concrete input: three bytes available, room for
four, eight requested. -/
theorem io_partial_results_bounded_witness :
    ((iot_tls_read sampleEnv ⟨ConnState.connected, sampleParams⟩ zeroMem 0 8).status < 0 ∨
      (0 ≤ (iot_tls_read sampleEnv ⟨ConnState.connected, sampleParams⟩ zeroMem 0 8).status ∧
        (iot_tls_read sampleEnv ⟨ConnState.connected, sampleParams⟩ zeroMem 0 8).status ≤ (8 : Int))) ∧
    ((iot_tls_write sampleEnv ⟨ConnState.connected, sampleParams⟩ zeroMem 0 8).status < 0 ∨
      (0 ≤ (iot_tls_write sampleEnv ⟨ConnState.connected, sampleParams⟩ zeroMem 0 8).status ∧
        (iot_tls_write sampleEnv ⟨ConnState.connected, sampleParams⟩ zeroMem 0 8).status ≤ (8 : Int))) ∧
    (sampleEnv.reset = false →
      0 ≤ (iot_tls_read sampleEnv ⟨ConnState.connected, sampleParams⟩ zeroMem 0 8).status ∧
      0 ≤ (iot_tls_write sampleEnv ⟨ConnState.connected, sampleParams⟩ zeroMem 0 8).status) :=
  io_partial_results_bounded sampleEnv ⟨ConnState.connected, sampleParams⟩
    zeroMem 0 8 (by decide)

/-- C6: the Connection Parameters record consists of exactly a root CA
location string, a device certificate location string, a device private key
location string, a destination URL/host string, a 16-bit unsigned
destination port, a 32-bit unsigned handshake timeout in milliseconds, and
a boolean server-verification flag — witnessed by an equivalence with the
corresponding seven-component product, plus the bit-width bounds of the two
integer fields. -/
theorem tls_connect_params_shape :
    Nonempty (TLSConnectParams ≃
      String × String × String × String × Fin 65536 × Fin 4294967296 × Bool) ∧
    ∀ q : TLSConnectParams,
      q.DestinationPort.val < 2 ^ 16 ∧ q.timeout_ms.val < 2 ^ 32 := by
  constructor
  · exact ⟨⟨fun q => ⟨q.pRootCALocation, q.pDeviceCertLocation,
      q.pDevicePrivateKeyLocation, q.pDestinationURL, q.DestinationPort,
      q.timeout_ms, q.ServerVerificationFlag⟩,
      fun t => ⟨t.1, t.2.1, t.2.2.1, t.2.2.2.1, t.2.2.2.2.1, t.2.2.2.2.2.1,
        t.2.2.2.2.2.2⟩,
      fun q => rfl, fun t => rfl⟩⟩
  · intro q
    exact ⟨q.DestinationPort.isLt, q.timeout_ms.isLt⟩

/-- C7: the `NetworkContext` structure contains exactly a capability vtable
of the five operations connect, read, write, disconnect and destroy (no
dispatched slot for the init operation exists), a by-value copy of the
Connection Parameters, and a pointer to the private `tls_context` object —
opaque to the protocol layer, hence an arbitrary type parameter here —
witnessed for every context type by an equivalence with the corresponding
seven-component product. -/
theorem network_context_shape (Ctx : Type) :
    Nonempty (NetworkContext Ctx ≃
      ConnectFn × ReadFn × WriteFn × DisconnectFn × DestroyFn ×
        TLSConnectParams × Option Ctx) :=
  ⟨⟨fun n => ⟨n.connect, n.read, n.write, n.disconnect, n.destroy,
      n.tlsConnectParams, n.context⟩,
    fun t => ⟨t.1, t.2.1, t.2.2.1, t.2.2.2.1, t.2.2.2.2.1, t.2.2.2.2.2.1,
      t.2.2.2.2.2.2⟩,
    fun n => rfl, fun t => rfl⟩⟩

/-- C8: `iot_tls_connect` does not mutate the caller's Connection
Parameters record, and the parameters stored in a Transport Handle stay
fixed across any sequence of transport operations on it (its whole
lifetime). -/
theorem connect_params_immutable (env : Env) (h : Handle)
    (params : TLSConnectParams) (w : World) (ops : List TOp) :
    (iot_tls_connect env h params).callerParams = params ∧
    (runOps w ops).handle.tlsConnectParams = w.handle.tlsConnectParams := by
  refine ⟨(connect_keeps_params env h params).1, ?_⟩
  induction ops generalizing w with
  | nil => rfl
  | cons op ops ih =>
      show (runOps (stepOp w op) ops).handle.tlsConnectParams = _
      rw [ih (stepOp w op), stepOp_keeps_params]

/-- C9: the write operation's message buffer is declared
`const unsigned char *` in both the vtable slot and the `iot_tls_write`
declaration; correspondingly the modelled write never modifies caller
memory — in every handle state, for every buffer address and length, the
memory after the call equals the memory before it, at every address. -/
theorem write_buffer_not_modified (env : Env) (h : Handle) (mem : Memory)
    (p len : Nat) :
    (iot_tls_write env h mem p len).mem = mem ∧
    ∀ a : Nat, (iot_tls_write env h mem p len).mem a = mem a := by
  have hm : (iot_tls_write env h mem p len).mem = mem := by
    unfold iot_tls_write; split_ifs <;> rfl
  exact ⟨hm, fun a => by rw [hm]⟩

/-- C10: the read slot takes exactly three parameters (handle pointer,
buffer pointer, requested length) and returns a signed int — its type is
equivalent to a function from that triple to `Int`, with no fourth
out-parameter — and the byte count is conveyed solely through the return
value: on a connected handle with no transport failure, the status equals
the number of bytes stored in the caller's buffer, and every address
outside the written region keeps its old contents. -/
theorem read_three_params_count_via_return (env : Env) (h : Handle)
    (mem : Memory) (p len : Nat) (hc : h.state = ConnState.connected)
    (hr : env.reset = false) :
    Nonempty (ReadFn ≃ ((Ptr × Ptr × Nat) → Int)) ∧
    (iot_tls_read env h mem p len).status
      = Int.ofNat (env.incoming.take len).length ∧
    ∀ a : Nat, a < p ∨ p + (env.incoming.take len).length ≤ a →
      (iot_tls_read env h mem p len).mem a = mem a := by
  have hread : iot_tls_read env h mem p len =
      ⟨h, storeBytes mem p (env.incoming.take len),
        Int.ofNat (env.incoming.take len).length⟩ := by
    unfold iot_tls_read
    simp [hc, hr]
  refine ⟨⟨⟨fun f t => f t.1 t.2.1 t.2.2, fun g a b c => g ⟨a, b, c⟩,
    fun f => rfl, fun g => rfl⟩⟩, ?_, ?_⟩
  · rw [hread]
  · intro a ha
    rw [hread]
    show storeBytes mem p (env.incoming.take len) a = mem a
    unfold storeBytes
    exact dif_neg (by omega)

/-- Witness for C10 at a concrete input: three bytes available, eight
requested, stored at address 2. -/
theorem read_three_params_count_via_return_witness :
    Nonempty (ReadFn ≃ ((Ptr × Ptr × Nat) → Int)) ∧
    (iot_tls_read sampleEnv ⟨ConnState.connected, sampleParams⟩ zeroMem 2 8).status
      = Int.ofNat (sampleEnv.incoming.take 8).length ∧
    ∀ a : Nat, a < 2 ∨ 2 + (sampleEnv.incoming.take 8).length ≤ a →
      (iot_tls_read sampleEnv ⟨ConnState.connected, sampleParams⟩ zeroMem 2 8).mem a
        = zeroMem a :=
  read_three_params_count_via_return sampleEnv
    ⟨ConnState.connected, sampleParams⟩ zeroMem 2 8 (by decide) (by decide)

end NetworkInterface
